import Mathlib

/-!
Verification of the Starlight Protocol repository: a shallow embedding of the
Pulse Sentinel (sentinels/pulse_sentinel.py), the PII Sentinel
(sentinels/pii_sentinel.py), the Janitor Sentinel (sentinels/janitor.py),
the Sentinel SDK's persistent memory (sdk/starlight_sdk.py) and the stealth
browser driver (src/stealth_driver.py), with theorems settling the claims
about them.

Conventions of the embedding: Python floats (timestamps, windows) are
modelled as exact rationals; Python dicts keyed by strings as association
lists or as functions `String → Option String`; code that raises and catches
exceptions as `Except` values or explicit failure flags; the browser and the
websocket, which are external to the code under proof, as oracle parameters.
-/

/- Rational arithmetic is kept evaluable so that concrete runs of the
embedded code reduce under `decide`. -/
attribute [local semireducible] Rat.mul Rat.add Rat.sub Rat.inv Rat.ofScientific

set_option maxRecDepth 4000

/-! ## Pulse Sentinel (sentinels/pulse_sentinel.py)

State machine constants from class SentinelState (lines 21-25). -/

inductive SentinelState where
  | IDLE
  | ANALYZING
  | VETOING
  | CLEARED
deriving DecidableEq, Repr

/-- A reply the Pulse Sentinel sends on a pre-check: `starlight.clear` or
`starlight.wait(retryAfterMs)` (sdk `send_clear` / `send_wait`; the constant
confidence 1.0 is not modelled). -/
inductive PulseReply where
  | clear
  | wait (retryAfterMs : ℤ)
deriving DecidableEq, Repr

/-- The fields of `params["command"]` that `on_pre_check` reads (lines
94-108). A key absent from the dict is the empty string (`cmd` defaults to
"unknown" at its read site, which the caller of the embedding supplies
directly), and an absent `stabilityHint` is 0. -/
structure PulseCommand where
  cmd : String
  goal : String
  selector : String
  url : String
  stabilityHint : ℚ
deriving DecidableEq, Repr

/-- The mutable state of a `PulseSentinel` instance that `on_entropy` and
`on_pre_check` touch: configuration snapshot (`settlementWindow`,
`maxVetoCount` from config), the state tag, `last_entropy_time`,
`entropy_history`, `veto_count`, `current_command_id`, and the three metrics
counters. -/
structure PulseState where
  settlementWindow : ℚ
  maxVetoCount : ℕ
  state : SentinelState
  lastEntropyTime : ℚ
  entropyHistory : List ℚ
  vetoCount : ℕ
  currentCommandId : Option String
  preChecks : ℕ
  vetoes : ℕ
  clearances : ℕ
deriving Repr

/-- Line 100: `cmd_key = goal or selector or url or cmd` (Python or-chain on
strings: first non-empty, else the last operand). -/
def cmdKey (c : PulseCommand) : String :=
  if c.goal ≠ "" then c.goal
  else if c.selector ≠ "" then c.selector
  else if c.url ≠ "" then c.url
  else c.cmd

/-- `on_entropy` (lines 52-69): on an entropy event record the time, append it
to the history capped at the last 10 events, and fall back to IDLE. -/
def pulseOnEntropy (s : PulseState) (entropyDetected : Bool) (now : ℚ) : PulseState :=
  if entropyDetected then
    let hist := s.entropyHistory ++ [now]
    let hist := if hist.length > 10 then hist.tail else hist
    { s with lastEntropyTime := now, entropyHistory := hist, state := SentinelState.IDLE }
  else s

/-- The inter-arrival intervals of the entropy history (lines 76-78):
`intervals[i] = history[i+1] - history[i]`. -/
def intervalsOf (history : List ℚ) : List ℚ :=
  (history.zip history.tail).map fun p => p.2 - p.1

/-- Line 80: `avg_interval = sum(intervals) / len(intervals)`. -/
def listMean (l : List ℚ) : ℚ := l.sum / l.length

/-- Line 84: `variance = sum((x - avg_interval) ** 2 for x in intervals) / len(intervals)`. -/
def listVariance (l : List ℚ) : ℚ :=
  ((l.map fun x => (x - listMean l) ^ 2).sum) / l.length

/-- `_is_rhythmic_animation` (lines 71-87): needs at least 5 recorded events,
a mean interval of at least 0.1 s, and interval variance below 0.005. -/
def isRhythmicAnimation (history : List ℚ) : Bool :=
  if history.length < 5 then false
  else
    let intervals := intervalsOf history
    let avg := listMean intervals
    if avg < 1/10 then false
    else decide (listVariance intervals < 5/1000)

/-- Lines 108-119: the settlement window actually used for this pre-check.
`dynamic_window = max(base_window, min(2.0, stability_hint / 1000.0 + 0.1))`,
taken only when the hint is positive. -/
def effectiveWindow (baseWindow hint : ℚ) : ℚ :=
  let dynamicWindow := max baseWindow (min 2 (hint / 1000 + 1/10))
  if hint > 0 then dynamicWindow else baseWindow

/-- `on_pre_check` (lines 89-155) as a function of the instance state, the
command payload and the wall clock `now`; returns the new state and the
single reply sent. -/
def pulseOnPreCheck (s : PulseState) (c : PulseCommand) (now : ℚ) :
    PulseState × PulseReply :=
  let s1 := { s with state := SentinelState.ANALYZING, preChecks := s.preChecks + 1 }
  let key := cmdKey c
  let v0 := if s1.currentCommandId ≠ some key then 0 else s1.vetoCount
  let s2 := { s1 with vetoCount := v0, currentCommandId := some key }
  let currentWindow := effectiveWindow s2.settlementWindow c.stabilityHint
  let rhythmic := isRhythmicAnimation s2.entropyHistory
  let silence := now - s2.lastEntropyTime
  let s3 :=
    if silence ≥ currentWindow then { s2 with state := SentinelState.CLEARED }
    else if rhythmic then { s2 with state := SentinelState.CLEARED }
    else s2
  if s3.state = SentinelState.CLEARED then
    ({ s3 with vetoCount := 0, clearances := s3.clearances + 1 }, PulseReply.clear)
  else if s3.vetoCount ≥ s3.maxVetoCount then
    ({ s3 with vetoCount := 0, state := SentinelState.CLEARED }, PulseReply.clear)
  else
    let waitTime := max (1/5) (currentWindow - silence)
    ({ s3 with
        state := SentinelState.VETOING, vetoCount := s3.vetoCount + 1,
        vetoes := s3.vetoes + 1 },
      PulseReply.wait ⌊waitTime * 1000⌋)

/-- A sequence of consecutive pre-checks delivered to the sentinel, each with
its wall-clock time; collects the replies in order. -/
def pulseRun (s : PulseState) (l : List (PulseCommand × ℚ)) :
    PulseState × List PulseReply :=
  match l with
  | [] => (s, [])
  | (c, t) :: rest =>
    let step := pulseOnPreCheck s c t
    let next := pulseRun step.1 rest
    (next.1, step.2 :: next.2)

/-- The veto count `on_pre_check` works with after its reset test (lines
103-105), for pre-checks whose command key is `k`. -/
def vetoCount0 (s : PulseState) (k : String) : ℕ :=
  if s.currentCommandId ≠ some k then 0 else s.vetoCount

/-- Concrete state for the C1 witness: fresh sentinel with the default
settlement window 0.5 s and default veto cap 3. -/
def pulseW1State : PulseState :=
  { settlementWindow := 1/2, maxVetoCount := 3, state := SentinelState.IDLE,
    lastEntropyTime := 0, entropyHistory := [], vetoCount := 0,
    currentCommandId := none, preChecks := 0, vetoes := 0, clearances := 0 }

/-- Concrete pre-check sequence for the C1 witness: four consecutive
pre-checks for the goal "submit-form", each 0.1-0.4 s after the last entropy
event (all inside the 0.5 s window, so never settled). -/
def pulseW1Checks : List (PulseCommand × ℚ) :=
  [({ cmd := "click", goal := "submit-form", selector := "", url := "", stabilityHint := 0 }, 1/10),
   ({ cmd := "click", goal := "submit-form", selector := "", url := "", stabilityHint := 0 }, 1/5),
   ({ cmd := "click", goal := "submit-form", selector := "", url := "", stabilityHint := 0 }, 3/10),
   ({ cmd := "click", goal := "submit-form", selector := "", url := "", stabilityHint := 0 }, 2/5)]

/-- Concrete state for the C2 witness: ten entropy events 0.2 s apart (a
perfect animation loop: mean interval 0.2 s, variance 0), the last one at
t = 1.8 s. -/
def pulseW2State : PulseState :=
  { settlementWindow := 1/2, maxVetoCount := 3, state := SentinelState.IDLE,
    lastEntropyTime := 9/5,
    entropyHistory := [0, 1/5, 2/5, 3/5, 4/5, 1, 6/5, 7/5, 8/5, 9/5],
    vetoCount := 0, currentCommandId := none,
    preChecks := 0, vetoes := 0, clearances := 0 }

/-- The window formula of the spec sentence "effective window = clamp(hint,
base, 2 s)", written from the spec's words for comparison with the code's
`effectiveWindow`: the hint (given in ms, converted to seconds) clamped
between the base settlement window and 2 s, the base alone when no positive
hint is supplied. -/
def clampWindowSpec (baseWindow hint : ℚ) : ℚ :=
  if hint > 0 then max baseWindow (min 2 (hint / 1000)) else baseWindow

/-- Concrete state for the C3 counterexample: fresh sentinel, base window
0.5 s, no entropy history. -/
def pulseW3State : PulseState :=
  { settlementWindow := 1/2, maxVetoCount := 3, state := SentinelState.IDLE,
    lastEntropyTime := 0, entropyHistory := [], vetoCount := 0,
    currentCommandId := none, preChecks := 0, vetoes := 0, clearances := 0 }

/-- Concrete command for the C3 counterexample: stability hint 500 ms. -/
def pulseW3Command : PulseCommand :=
  { cmd := "click", goal := "open menu", selector := "", url := "", stabilityHint := 500 }

/-! ## PII Sentinel (sentinels/pii_sentinel.py)

Regular-expression matching is embedded concretely for the patterns the
claims need: the default `ssn` pattern `\b\d{3}-\d{2}-\d{4}\b` and literal
(plain-text) custom patterns, both with Python `re.findall`'s left-to-right
non-overlapping semantics. Other patterns enter the model as opaque
match functions, which is all `scan_for_pii` uses of a compiled pattern.
ASCII texts are assumed: `\w` is modelled as `[A-Za-z0-9_]`. -/

/-- Python regex `\w` (ASCII). -/
def isWordChar (c : Char) : Bool := c.isAlphanum || c == '_'

/-- A `\b` word boundary holds before the match start: start of text or a
non-word character. -/
def boundaryBefore : Option Char → Bool
  | none => true
  | some c => !(isWordChar c)

/-- `\d{3}-\d{2}-\d{4}\b` anchored at the head of the list: the matched text
when the next eleven characters fit and the following character (if any) is
not a word character. -/
def ssnMatchAt : List Char → Option String
  | d1 :: d2 :: d3 :: h1 :: d4 :: d5 :: h2 :: d6 :: d7 :: d8 :: d9 :: rest =>
    if d1.isDigit && d2.isDigit && d3.isDigit && (h1 == '-') && d4.isDigit && d5.isDigit
        && (h2 == '-') && d6.isDigit && d7.isDigit && d8.isDigit && d9.isDigit
        && (match rest with | [] => true | r :: _ => !(isWordChar r)) then
      some (String.mk [d1, d2, d3, h1, d4, d5, h2, d6, d7, d8, d9])
    else none
  | _ => none

/-- The scanning loop of `re.findall` for the ssn pattern: try each position
left to right, skipping over the 11 characters of a successful match
(non-overlapping); `prev` is the character before the current position for
the `\b` test, `skip` the characters still inside the last match. -/
def ssnAux : Option Char → ℕ → List Char → List String
  | _, _, [] => []
  | _, Nat.succ k, c :: cs => ssnAux (some c) k cs
  | prev, 0, c :: cs =>
    if boundaryBefore prev then
      match ssnMatchAt (c :: cs) with
      | some m => m :: ssnAux (some c) 10 cs
      | none => ssnAux (some c) 0 cs
    else ssnAux (some c) 0 cs

/-- `re.findall` of the default `ssn` pattern (pii_sentinel.py line 34). -/
def ssnFindall (text : String) : List String := ssnAux none 0 text.data

/-- `re.findall` of a literal (plain-text, non-empty) custom pattern, as
`pii.patterns` in config may supply (lines 26, 41-47): non-overlapping
occurrences, left to right. -/
def literalAux (pat : List Char) : ℕ → List Char → List String
  | _, [] => []
  | Nat.succ k, _ :: cs => literalAux pat k cs
  | 0, c :: cs =>
    if !pat.isEmpty && pat.isPrefixOf (c :: cs) then
      String.mk pat :: literalAux pat (pat.length - 1) cs
    else literalAux pat 0 cs

/-- `re.findall` for a literal custom pattern. -/
def literalFindall (pat text : String) : List String := literalAux pat.data 0 text.data

/-- `_redact` (lines 68-72): values of up to 4 characters become the fixed
mask "****"; longer values keep their first and last two characters with
asterisks in between. -/
def piiRedact (value : String) : String :=
  if value.length ≤ 4 then "****"
  else String.mk (value.data.take 2
    ++ List.replicate (value.length - 4) '*'
    ++ value.data.drop (value.data.length - 2))

/-- One entry of the findings list built by `scan_for_pii` (lines 60-64). -/
structure PIIFinding where
  ty : String
  value : String
  rawLength : ℕ
deriving DecidableEq, Repr

/-- `scan_for_pii` (lines 53-66) over the compiled pattern set, each pattern
an opaque findall function. -/
def scanForPII (patterns : List (String × (String → List String))) (text : String) :
    List PIIFinding :=
  (patterns.map fun p =>
    (p.2 text).map fun m => { ty := p.1, value := piiRedact m, rawLength := m.length }).flatten

/-- The replies `on_pre_check` can send: `starlight.hijack` (its reason
string, formatted from the detected types, is not modelled),
`starlight.resume(re_check)` and `starlight.clear`. -/
inductive PIIReply where
  | hijack
  | resume (reCheck : Bool)
  | clear
deriving DecidableEq, Repr

/-- Lines 83-85: `all_text = page_text` followed by
`all_text += " " + element.get("text", "")` over the blocking elements. -/
def allTextOf (pageText : String) (blockingTexts : List String) : String :=
  blockingTexts.foldl (fun acc t => acc ++ " " ++ t) pageText

/-- Line 87, the truthiness of `all_text.strip()`: non-empty after stripping
whitespace iff some character is not whitespace. (Python also strips \f and
\v, which no claim's text contains.) -/
def stripTruthy (s : String) : Bool := s.data.any fun c => !c.isWhitespace

/-- `on_pre_check` (lines 74-109) as the ordered list of replies sent, as a
function of the configured mode, the compiled patterns, and the pre-check's
page text and blocking-element texts. -/
def piiOnPreCheck (mode : String) (patterns : List (String × (String → List String)))
    (pageText : String) (blockingTexts : List String) : List PIIReply :=
  let allText := allTextOf pageText blockingTexts
  if stripTruthy allText then
    let findings := scanForPII patterns allText
    if findings ≠ [] then
      if mode == "block" then [PIIReply.hijack, PIIReply.resume false]
      else [PIIReply.clear]
    else [PIIReply.clear]
  else [PIIReply.clear]

/-- The outcome of the pending command after the pre-check. -/
inductive HubOutcome where
  | aborted
  | dispatched
deriving DecidableEq, Repr

/-- Modelled from the spec: the Hub Orchestrator is not part of src/ (only
the sentinels, the SDK and the browser driver are), so its decision rule is
taken from the spec's words: "*block* transitions the current command to a
hijack that aborts the remediation path" and scenario 6, "Pre-check carrying
that text triggers a synthetic hijack `pii_block`; the command is aborted
with kind `blocked`" — a pre-check answered with a hijack under PII block
aborts the command instead of dispatching it. -/
def hubOutcomeSpec (replies : List PIIReply) : HubOutcome :=
  if PIIReply.hijack ∈ replies then HubOutcome.aborted else HubOutcome.dispatched

/-! ## Sentinel SDK persistent memory (sdk/starlight_sdk.py)

The file system is modelled as a map from path to `Option` content; the
sentinel's memory dict as an association list; JSON parsing as an opaque
partial parse function (`none` = `json.JSONDecodeError`). -/

/-- Create or overwrite a file (`os.fdopen(fd, 'w')` + write). -/
def fsWrite (fs : String → Option String) (name content : String) :
    String → Option String :=
  fun n => if n = name then some content else fs n

/-- Delete a file (`os.unlink`). -/
def fsRemove (fs : String → Option String) (name : String) :
    String → Option String :=
  fun n => if n = name then none else fs n

/-- Rename src over dst (`shutil.move` within one directory): dst gets src's
content, src disappears. -/
def fsRename (fs : String → Option String) (src dst : String) :
    String → Option String :=
  fun n => if n = dst then fs src else if n = src then none else fs n

/-- `_save_memory` (lines 67-80): `tempfile.mkstemp` creates the temp file,
`json.dump` writes the serialized memory into it (`writeOk = false` models
the dump raising), then `shutil.move` renames it over the memory file; on a
write failure the temp file is unlinked and the outer handler only logs. -/
def saveMemory (fs : String → Option String) (memoryFile tempPath serialized : String)
    (writeOk : Bool) : String → Option String :=
  let fs1 := fsWrite fs tempPath ""
  if writeOk then fsRename (fsWrite fs1 tempPath serialized) tempPath memoryFile
  else fsRemove fs1 tempPath

/-- `_load_memory` (lines 54-65): missing file leaves `self.memory` (the
`{}` from `__init__`) as it is; a file whose content fails `json.load`
(`JSONDecodeError`) resets the memory to empty; a parsed file replaces it.
The function is total: the handler swallows the decode error, so no
exception propagates. -/
def loadMemory (current : List (String × String)) (file : Option String)
    (parse : String → Option (List (String × String))) : List (String × String) :=
  match file with
  | none => current
  | some content =>
    match parse content with
    | some m => m
    | none => []

/-- A concrete file system for the C6 witness: only the memory file exists. -/
def sdkW6FS : String → Option String :=
  fun n => if n = "PulseSentinel_memory.json" then some "old-contents" else none

/-! ## Stealth driver (src/stealth_driver.py)

Python exceptions are modelled as a class tag plus a message; the Selenium
calls, which are external I/O, as oracle functions. -/

/-- The exception classes relevant to `map_exception_to_protocol`: the four
specific Selenium exceptions, any other `WebDriverException`, and
non-Selenium exceptions that `dispatch_command` can raise (`ValueError` for
an unknown method, `AttributeError` for the missing `execute_script`
attribute, anything else). -/
inductive ExcKind where
  | noSuchElementException
  | staleElementReferenceException
  | timeoutException
  | elementNotInteractableException
  | webDriverException
  | valueError
  | attributeError
  | otherException
deriving DecidableEq, Repr

/-- `type(e).__name__`. -/
def excTypeName : ExcKind → String
  | ExcKind.noSuchElementException => "NoSuchElementException"
  | ExcKind.staleElementReferenceException => "StaleElementReferenceException"
  | ExcKind.timeoutException => "TimeoutException"
  | ExcKind.elementNotInteractableException => "ElementNotInteractableException"
  | ExcKind.webDriverException => "WebDriverException"
  | ExcKind.valueError => "ValueError"
  | ExcKind.attributeError => "AttributeError"
  | ExcKind.otherException => "Exception"

/-- `isinstance(e, WebDriverException)`: the four specific Selenium
exceptions are subclasses of `WebDriverException`. -/
def isWebDriverException : ExcKind → Bool
  | ExcKind.noSuchElementException => true
  | ExcKind.staleElementReferenceException => true
  | ExcKind.timeoutException => true
  | ExcKind.elementNotInteractableException => true
  | ExcKind.webDriverException => true
  | _ => false

/-- A raised Python exception: its class and `str(e)`. -/
structure PyExc where
  kind : ExcKind
  msg : String
deriving DecidableEq, Repr

/-- Python `pat in s`: `pat` occurs as a contiguous substring of `s`. -/
def strContains (s pat : String) : Bool := decide (pat.data <:+: s.data)

/-- Python `str.lower()` (over the basic latin range, as the trigger
substrings need): `String.toLower` written over the character list so that
it evaluates by reduction. -/
def pyLower (s : String) : String := String.mk (s.data.map Char.toLower)

/-- Line 621: `error_msg = str(e) or type(e).__name__`. -/
def pyErrorMsg (e : PyExc) : String := if e.msg = "" then excTypeName e.kind else e.msg

/-- `map_exception_to_protocol` (lines 619-639): the protocol error code and
message for a raised exception, decided by the first matching rule, each
rule firing on the exception class or on a (lowercased) message substring. -/
def mapExceptionToProtocol (e : PyExc) (selector : Option String) : ℤ × String :=
  let errorMsg := pyErrorMsg e
  let context := match selector with
    | some sel => ": " ++ sel
    | none => ""
  if e.kind = ExcKind.noSuchElementException
      || strContains (pyLower errorMsg) "no such element" then
    (-32001, "NOT_FOUND" ++ context)
  else if e.kind = ExcKind.staleElementReferenceException
      || strContains (pyLower errorMsg) "stale" then
    (-32002, "STALE_INTENT" ++ context)
  else if e.kind = ExcKind.timeoutException
      || strContains (pyLower errorMsg) "timeout" then
    (-32003, "TIMEOUT_EXCEEDED" ++ context)
  else if e.kind = ExcKind.elementNotInteractableException
      || strContains (pyLower errorMsg) "not interactable" then
    (-32004, "OBSTRUCTED" ++ context)
  else if isWebDriverException e.kind then
    (-32005, "DRIVER_CRASH: " ++ errorMsg)
  else
    (-32005, errorMsg)

/-- The five Starlight protocol error codes (class ProtocolError,
lines 49-54). -/
def protocolErrorCodes : List ℤ := [-32001, -32002, -32003, -32004, -32005]

/-- The dict `StealthDriver.screenshot` returns: a status and the base64
image data. -/
structure ScreenshotResp where
  status : String
  data : String
deriving DecidableEq, Repr

/-- Line 382: the fixed 1×1 transparent PNG placeholder (`dummy_data`). -/
def dummyPngData : String :=
  "iVBORw0KGgoAAAANSUhEUgAAAAEAAAABCAYAAAAfFcSJAAAADUlEQVR42mP8/5+hHgAHggJ/PchI7wAAAABJRU5ErkJggg=="

/-- `StealthDriver.screenshot` (lines 374-383) as a function of the outcome
of the underlying capture call (`self.sb.driver.get_screenshot_as_base64`
through `_safe_driver_call`): the base64 data on success, or the raised
exception's message on failure. -/
def screenshot (capture : Except String String) : ScreenshotResp :=
  match capture with
  | Except.ok data => { status := "ok", data := data }
  | Except.error _ => { status := "ok", data := dummyPngData }

/-! ### The main JSON-RPC loop (`dispatch_command`, `main`) -/

/-- A dequeued JSON-RPC request as the loop reads it (lines 711-714): its
method, the `selector` param (used for the error context) and its id. -/
structure RpcRequest where
  method : String
  selector : Option String
  id : Option String
deriving DecidableEq, Repr

/-- A response's payload: a `result` object or an `error{code,message}`
object (`make_success_response` / `make_error_response`, lines 57-75). -/
inductive RpcPayload (ρ : Type) where
  | result (r : ρ)
  | rpcError (code : ℤ) (message : String)
deriving DecidableEq, Repr

/-- One JSON-RPC response line written to stdout. -/
structure RpcResponse (ρ : Type) where
  id : Option String
  payload : RpcPayload ρ
deriving DecidableEq, Repr

/-- Line 719 / 680: the methods handled as immediate shutdown. -/
def shutdownMethods : List String := ["close", "shutdown", "force_kill"]

/-- `dispatch_command` (lines 645-683), the driver methods as an oracle
`beh` returning the method's result dict or its raised exception. The
branch for "execute_script" calls `driver.execute_script`, an attribute
`StealthDriver` does not define, so it raises `AttributeError`; an unknown
method raises `ValueError`. `driver.close` (lines 601-613) cannot raise and
returns its status dict `closeResult`. -/
def dispatchCommand {ρ : Type} (beh : String → Except PyExc ρ) (closeResult : ρ)
    (method : String) : Except PyExc ρ :=
  if method = "initialize" then beh method
  else if method = "goto" then beh method
  else if method = "click" then beh method
  else if method = "execute_script" then
    Except.error { kind := ExcKind.attributeError
                   msg := "'StealthDriver' object has no attribute 'execute_script'" }
  else if method = "fill" then beh method
  else if method = "type" then beh method
  else if method = "screenshot" then beh method
  else if method = "evaluate" then beh method
  else if method = "press" then beh method
  else if method = "get_page_text" then beh method
  else if method = "get_url" then beh method
  else if method = "get_cookies" then beh method
  else if method = "set_cookies" then beh method
  else if method = "get_storage" then beh method
  else if method = "set_storage" then beh method
  else if method ∈ shutdownMethods then Except.ok closeResult
  else Except.error { kind := ExcKind.valueError, msg := "Unknown method: " ++ method }

/-- One iteration of `main`'s loop for a dequeued request (lines 711-739):
the shutdown family is answered with `driver.close()`'s result directly;
otherwise `dispatch_command` runs under the exception handler, a raise being
turned into an error response through `map_exception_to_protocol`. Returns
the list of response lines written to stdout for this request. -/
def processRequest {ρ : Type} (beh : String → Except PyExc ρ) (closeResult : ρ)
    (req : RpcRequest) : List (RpcResponse ρ) :=
  if req.method ∈ shutdownMethods then
    [{ id := req.id, payload := RpcPayload.result closeResult }]
  else
    match dispatchCommand beh closeResult req.method with
    | Except.ok r => [{ id := req.id, payload := RpcPayload.result r }]
    | Except.error e =>
      let ce := mapExceptionToProtocol e req.selector
      [{ id := req.id, payload := RpcPayload.rpcError ce.1 ce.2 }]

/-! ## Janitor Sentinel (sentinels/janitor.py) -/

/-- The class SentinelState of janitor.py (lines 17-22). -/
inductive JanitorPhase where
  | IDLE
  | ANALYZING
  | HIJACKING
  | RESUMED
  | ERROR
deriving DecidableEq, Repr

/-- `self.last_action` as the Janitor sets it: obstacle id, the selector
clicked, and whether the selector was already known from memory. -/
structure LastAction where
  id : String
  selector : String
  known : Bool
deriving DecidableEq, Repr

/-- The mutable Janitor state that `perform_remediation` and `on_message`
touch. The memory dict is an association list. -/
structure JanitorState where
  phase : JanitorPhase
  memory : List (String × String)
  lastAction : Option LastAction
  recoverySuccessful : Bool
  triedSelectors : List String
  currentActionSelector : Option String
  hijacks : ℕ
  recoveries : ℕ
deriving DecidableEq, Repr

/-- The messages `perform_remediation` sends to the Hub. -/
inductive JanitorReply where
  | hijack (reason : String)
  | action (kind selector : String)
  | resume (reCheck : Bool)
deriving DecidableEq, Repr

/-- `dict.get` on the memory association list. -/
def lookupMemory (mem : List (String × String)) (k : String) : Option String :=
  (mem.find? fun p => p.1 = k).map fun p => p.2

/-- `self.memory[obs_id] = sel`: overwrite the key or append it. -/
def insertMemory (mem : List (String × String)) (k v : String) :
    List (String × String) :=
  if (mem.find? fun p => p.1 = k).isSome then
    mem.map fun p => if p.1 = k then (k, v) else p
  else mem ++ [(k, v)]

/-- The heuristic `fallback_selectors` list of `perform_remediation`
(lines 198-231). -/
def fallbackSelectors : List String :=
  ["nth-child(1) >> #onetrust-accept-btn-handler",
   "internal:control=enter-frame >> #onetrust-accept-btn-handler",
   "#onetrust-accept-btn-handler",
   "#onetrust-reject-all-handler",
   "#onetrust-pc-btn-handler",
   ".onetrust-close-btn-handler",
   "#CybotCookiebotDialogBodyLevelButtonLevelOptinAllowAll",
   "#CybotCookiebotDialogBodyButtonDecline",
   "button:has-text('United Kingdom')",
   "a:has-text('United Kingdom')",
   "a:has-text('UK')",
   ".region-link",
   "#cookie-accept", "#accept-cookies", ".cookie-accept",
   ".shadow-close-btn", "#close-btn", ".close-btn", ".btn-close",
   "button:has-text('Accept All')",
   "button:has-text('Accept Cookies')",
   "button:has-text('Accept')",
   "button:has-text('Agree')",
   "button:has-text('Allow All')",
   "button:has-text('Reject All')",
   "button:has-text('Dismiss')",
   "button:has-text('Close')",
   "button:has-text('OK')",
   "button:has-text('Got It')",
   "button:has-text('Ã—')"]

/-- `perform_remediation` (lines 174-253) as new state plus sent messages.
When the obstacle id has a remembered selector, that selector is clicked
predictively and `last_action` records it with `known: True` (line 188);
otherwise every fallback selector is clicked blindly and — "Logic Fix: Do
NOT learn from blind heuristics" (lines 241-243) — `last_action` is set to
`None`. Either way the remediation ends with `resume(re_check=True)` and the
phase returns to IDLE. -/
def performRemediation (s : JanitorState) (obstacleId : String) :
    JanitorState × List JanitorReply :=
  if s.phase = JanitorPhase.HIJACKING then (s, [])
  else
    let s := { s with triedSelectors := [] }
    match lookupMemory s.memory obstacleId with
    | some bestAction =>
      ({ s with
          phase := JanitorPhase.IDLE,
          hijacks := s.hijacks + 1,
          recoveries := s.recoveries + 1,
          lastAction := some { id := obstacleId, selector := bestAction, known := true } },
        [JanitorReply.hijack ("Predictive remediation for " ++ obstacleId),
         JanitorReply.action "click" bestAction,
         JanitorReply.resume true])
    | none =>
      let clicks := fallbackSelectors.map fun sel => sel ++ " >> visible=true"
      ({ s with
          phase := JanitorPhase.IDLE,
          hijacks := s.hijacks + 1,
          recoveries := s.recoveries + 1,
          triedSelectors := clicks,
          currentActionSelector := clicks.getLast?,
          lastAction := none },
        JanitorReply.hijack ("Janitor heuristic healing for " ++ obstacleId)
          :: clicks.map (JanitorReply.action "click")
          ++ [JanitorReply.resume true])

/-- The `COMMAND_COMPLETE` branch of `on_message` (lines 315-337): `success`
is the message's optional success flag (`params.get("success", False)` for
the recovery check, `params.get("success", True)` in the learning branch).
If a `last_action` is pending and its selector was not already known, the
selector is stored in memory (and `_save_memory` called); a known or absent
`last_action` leaves the memory unchanged. -/
def janitorOnCommandComplete (s : JanitorState) (success : Option Bool) : JanitorState :=
  let s := if s.phase = JanitorPhase.HIJACKING ∧ success.getD false then
      { s with recoverySuccessful := true }
    else s
  match s.lastAction with
  | none => s
  | some la =>
    let s :=
      if success.getD true then
        if la.known then s
        else if la.selector ≠ "" ∧ lookupMemory s.memory la.id ≠ some la.selector then
          { s with memory := insertMemory s.memory la.id la.selector }
        else s
      else s
    { s with lastAction := none }

/-- The Janitor's reachable states only carry `last_action` entries with
`known = true`: the predictive branch is the only assignment of a non-`None`
`last_action` (line 188), and it always writes `known: True`. -/
def janitorInv (s : JanitorState) : Prop :=
  ∀ la, s.lastAction = some la → la.known = true

/-- A fresh Janitor for the C8 witness: idle, empty memory, no pending
action. -/
def janitorW8State : JanitorState :=
  { phase := JanitorPhase.IDLE, memory := [], lastAction := none,
    recoverySuccessful := false, triedSelectors := [], currentActionSelector := none,
    hijacks := 0, recoveries := 0 }


/-- One unsettled, non-rhythmic pre-check below the veto cap: the sentinel
vetoes with `starlight.wait` and increments its veto count. -/
theorem pulseOnPreCheck_wait (s : PulseState) (c : PulseCommand) (now : ℚ)
    (hrh : isRhythmicAnimation s.entropyHistory = false)
    (hsil : now - s.lastEntropyTime < effectiveWindow s.settlementWindow c.stabilityHint)
    (hv : vetoCount0 s (cmdKey c) < s.maxVetoCount) :
    pulseOnPreCheck s c now =
      ({ s with
          state := SentinelState.VETOING,
          preChecks := s.preChecks + 1,
          vetoes := s.vetoes + 1,
          currentCommandId := some (cmdKey c),
          vetoCount := vetoCount0 s (cmdKey c) + 1 },
        PulseReply.wait
          ⌊max (1/5)
              (effectiveWindow s.settlementWindow c.stabilityHint - (now - s.lastEntropyTime))
              * 1000⌋) := by
  have hA : ¬ (now - s.lastEntropyTime ≥ effectiveWindow s.settlementWindow c.stabilityHint) :=
    not_le.mpr hsil
  have hv' : ¬ (vetoCount0 s (cmdKey c) ≥ s.maxVetoCount) := not_le.mpr hv
  simp only [pulseOnPreCheck, vetoCount0] at *
  simp only [hA, if_false, hrh, Bool.false_eq_true, ite_false, reduceIte]
  split_ifs with h1 <;> simp_all

/-- One unsettled, non-rhythmic pre-check at or above the veto cap: the
sentinel force-clears and resets its veto count. -/
theorem pulseOnPreCheck_force_clear (s : PulseState) (c : PulseCommand) (now : ℚ)
    (hrh : isRhythmicAnimation s.entropyHistory = false)
    (hsil : now - s.lastEntropyTime < effectiveWindow s.settlementWindow c.stabilityHint)
    (hv : s.maxVetoCount ≤ vetoCount0 s (cmdKey c)) :
    pulseOnPreCheck s c now =
      ({ s with
          state := SentinelState.CLEARED,
          preChecks := s.preChecks + 1,
          currentCommandId := some (cmdKey c),
          vetoCount := 0 },
        PulseReply.clear) := by
  have hA : ¬ (now - s.lastEntropyTime ≥ effectiveWindow s.settlementWindow c.stabilityHint) :=
    not_le.mpr hsil
  simp only [pulseOnPreCheck, vetoCount0] at *
  simp only [hA, if_false, hrh, Bool.false_eq_true, ite_false, reduceIte]
  split_ifs with h1 <;> simp_all

/-- Running a list of consecutive unsettled, non-rhythmic pre-checks for one
command key, all below the veto cap: every reply is a wait, the veto count
grows by one per pre-check, and the entropy/configuration fields are
untouched. -/
theorem pulseRun_all_wait (l : List (PulseCommand × ℚ)) (s : PulseState) (k : String)
    (hrh : isRhythmicAnimation s.entropyHistory = false)
    (hkey : ∀ p ∈ l, cmdKey p.1 = k)
    (hsil : ∀ p ∈ l, p.2 - s.lastEntropyTime < effectiveWindow s.settlementWindow p.1.stabilityHint)
    (hcnt : vetoCount0 s k + l.length ≤ s.maxVetoCount) :
    ∃ ws : List ℤ,
      ws.length = l.length ∧
      (pulseRun s l).2 = ws.map PulseReply.wait ∧
      vetoCount0 (pulseRun s l).1 k = vetoCount0 s k + l.length ∧
      (pulseRun s l).1.lastEntropyTime = s.lastEntropyTime ∧
      (pulseRun s l).1.entropyHistory = s.entropyHistory ∧
      (pulseRun s l).1.settlementWindow = s.settlementWindow ∧
      (pulseRun s l).1.maxVetoCount = s.maxVetoCount := by
  induction l generalizing s with
  | nil => exact ⟨[], by simp [pulseRun]⟩
  | cons p rest ih =>
    obtain ⟨c, t⟩ := p
    have hk : cmdKey c = k := hkey (c, t) (List.mem_cons_self _ _)
    have hs : t - s.lastEntropyTime < effectiveWindow s.settlementWindow c.stabilityHint :=
      hsil (c, t) (List.mem_cons_self _ _)
    have hvlt : vetoCount0 s (cmdKey c) < s.maxVetoCount := by
      rw [hk]; simp at hcnt; omega
    have hstep := pulseOnPreCheck_wait s c t hrh hs hvlt
    set s' : PulseState :=
      { s with
          state := SentinelState.VETOING,
          preChecks := s.preChecks + 1,
          vetoes := s.vetoes + 1,
          currentCommandId := some (cmdKey c),
          vetoCount := vetoCount0 s (cmdKey c) + 1 } with hs'
    have hv0' : vetoCount0 s' k = vetoCount0 s k + 1 := by
      simp [vetoCount0, hs', hk]
    obtain ⟨ws, hlen, hrep, hvc, hle, heh, hsw, hmx⟩ :=
      ih s' (by simp [hs', hrh])
        (fun q hq => hkey q (List.mem_cons_of_mem _ hq))
        (fun q hq => by simpa [hs'] using hsil q (List.mem_cons_of_mem _ hq))
        (by simp [hv0', hs'] ; simp at hcnt; omega)
    refine ⟨⌊max (1/5)
        (effectiveWindow s.settlementWindow c.stabilityHint - (t - s.lastEntropyTime))
        * 1000⌋ :: ws, by simp [hlen], ?_, ?_, ?_, ?_, ?_, ?_⟩
    all_goals simp only [pulseRun, hstep, List.map_cons]
    all_goals (simp_all; try omega)

/-- `pulseRun` distributes over list append. -/
theorem pulseRun_append (s : PulseState) (l1 l2 : List (PulseCommand × ℚ)) :
    pulseRun s (l1 ++ l2) =
      ((pulseRun (pulseRun s l1).1 l2).1,
        (pulseRun s l1).2 ++ (pulseRun (pulseRun s l1).1 l2).2) := by
  induction l1 generalizing s with
  | nil => simp [pulseRun]
  | cons p rest ih =>
    obtain ⟨c, t⟩ := p
    simp [pulseRun, ih]

/-- C1. For every sequence of consecutive pre-checks for one command identity
(goal/selector/url key) in which the environment is neither settled nor
rhythmic, the Pulse Sentinel replies `starlight.wait` at most `maxVetoCount`
times, and once the veto count has reached `maxVetoCount` it replies to the
next such pre-check with `starlight.clear` (force clear): a run of
`maxVetoCount + 1` such pre-checks yields exactly `maxVetoCount` wait replies
followed by one clear. -/
theorem pulse_veto_cap_force_clear (s : PulseState) (k : String)
    (l : List (PulseCommand × ℚ))
    (hnew : s.currentCommandId ≠ some k)
    (hlen : l.length = s.maxVetoCount + 1)
    (hkey : ∀ p ∈ l, cmdKey p.1 = k)
    (hrh : isRhythmicAnimation s.entropyHistory = false)
    (hsil : ∀ p ∈ l, p.2 - s.lastEntropyTime < effectiveWindow s.settlementWindow p.1.stabilityHint) :
    ∃ ms : List ℤ, ms.length = s.maxVetoCount ∧
      (pulseRun s l).2 = ms.map PulseReply.wait ++ [PulseReply.clear] := by
  have hne : l ≠ [] := by intro h; rw [h] at hlen; simp at hlen
  have hsplit : l.dropLast ++ [l.getLast hne] = l := List.dropLast_append_getLast hne
  have hv0 : vetoCount0 s k = 0 := by simp [vetoCount0, hnew]
  have hlf : l.dropLast.length = s.maxVetoCount := by
    rw [List.length_dropLast, hlen]; omega
  obtain ⟨ws, hwlen, hrep, hvc, hle, heh, hsw, hmx⟩ :=
    pulseRun_all_wait l.dropLast s k hrh
      (fun q hq => hkey q (List.dropLast_subset l hq))
      (fun q hq => hsil q (List.dropLast_subset l hq))
      (by rw [hv0, hlf]; omega)
  set s1 : PulseState := (pulseRun s l.dropLast).1 with hs1
  set pl : PulseCommand × ℚ := l.getLast hne with hpl
  have hplmem : pl ∈ l := List.getLast_mem hne
  have hkpl : cmdKey pl.1 = k := hkey pl hplmem
  have hstep := pulseOnPreCheck_force_clear s1 pl.1 pl.2
    (by rw [heh]; exact hrh)
    (by rw [hle, hsw]; exact hsil pl hplmem)
    (by rw [hkpl, hmx, hvc, hv0, hlf]; omega)
  refine ⟨ws, by rw [hwlen, hlf], ?_⟩
  conv_lhs => rw [← hsplit]
  rw [pulseRun_append]
  simp [pulseRun, hstep, hrep]

/-- Witness for C1: on the concrete four-pre-check run the sentinel waits
three times and then force-clears. -/
theorem pulse_veto_cap_force_clear_witness :
    ∃ ms : List ℤ, ms.length = 3 ∧
      (pulseRun pulseW1State pulseW1Checks).2 = ms.map PulseReply.wait ++ [PulseReply.clear] :=
  pulse_veto_cap_force_clear pulseW1State "submit-form" pulseW1Checks
    (by decide) (by decide) (by decide) (by decide) (by decide)

/-- A 10-event history whose intervals have mean above 0.1 s and variance
below 0.005 is detected as a rhythmic animation. -/
theorem isRhythmicAnimation_of_periodic (history : List ℚ)
    (hlen : history.length = 10)
    (hmean : 1/10 < listMean (intervalsOf history))
    (hvar : listVariance (intervalsOf history) < 5/1000) :
    isRhythmicAnimation history = true := by
  simp only [isRhythmicAnimation]
  rw [if_neg (by omega), if_neg (not_lt.mpr (le_of_lt hmean))]
  exact decide_eq_true hvar

/-- C2. If the recorded entropy-event history (the last 10 entropy-event
timestamps) has inter-arrival intervals whose variance is below the epsilon
0.005 and whose mean exceeds 100 ms, the pre-check verdict is stable: the
sentinel replies `starlight.clear` for every pre-check time `now`, i.e.
regardless of how recently the last entropy event occurred. -/
theorem pulse_rhythmic_always_clear (s : PulseState) (c : PulseCommand) (now : ℚ)
    (hlen : s.entropyHistory.length = 10)
    (hmean : 1/10 < listMean (intervalsOf s.entropyHistory))
    (hvar : listVariance (intervalsOf s.entropyHistory) < 5/1000) :
    (pulseOnPreCheck s c now).2 = PulseReply.clear := by
  have hr : isRhythmicAnimation s.entropyHistory = true :=
    isRhythmicAnimation_of_periodic s.entropyHistory hlen hmean hvar
  simp only [pulseOnPreCheck]
  split_ifs with h1 h2 h3 <;> simp_all

/-- Witness for C2: on the rhythmic history the sentinel clears a pre-check
arriving immediately after the last entropy event (silence 0.05 s, far below
the 0.5 s window). -/
theorem pulse_rhythmic_always_clear_witness :
    (pulseOnPreCheck pulseW2State
      { cmd := "click", goal := "open", selector := "", url := "", stabilityHint := 0 }
      (37/20)).2 = PulseReply.clear :=
  pulse_rhythmic_always_clear pulseW2State
    { cmd := "click", goal := "open", selector := "", url := "", stabilityHint := 0 }
    (37/20) (by decide) (by decide) (by decide)

/-- Counterexample to C3 as stated. With base window 0.5 s and hint 500 ms
the claimed window clamp(hint, base, 2 s) is 0.5 s; at a pre-check 0.55 s
after the last entropy event the silence meets that claimed window (and the
history is not rhythmic, the command fresh), yet the sentinel does not clear:
it vetoes with wait(200 ms), because the code adds a 0.1 s offset to the hint
(`(stability_hint / 1000.0) + 0.1`, line 113), making the effective window
0.6 s, not clamp(hint, base, 2 s) = 0.5 s. -/
theorem pulse_window_clamp_counterexample :
    clampWindowSpec pulseW3State.settlementWindow pulseW3Command.stabilityHint = 1/2
    ∧ clampWindowSpec pulseW3State.settlementWindow pulseW3Command.stabilityHint
        ≤ (11/20 : ℚ) - pulseW3State.lastEntropyTime
    ∧ isRhythmicAnimation pulseW3State.entropyHistory = false
    ∧ (pulseOnPreCheck pulseW3State pulseW3Command (11/20)).2 = PulseReply.wait 200
    ∧ (pulseOnPreCheck pulseW3State pulseW3Command (11/20)).2 ≠ PulseReply.clear := by
  refine ⟨by decide, by decide, by decide, by decide, by decide⟩

/-- C3 as amended. For every pre-check carrying a positive stability hint,
the effective settlement window used by the Pulse Sentinel equals
max(settlementWindow, min(2 s, hint/1000 + 0.1 s)) — the hint converted to
seconds plus a 0.1 s offset, clamped between the base window and 2 s; with no
positive hint the base settlementWindow is used unchanged. Stated
behaviourally: below the veto cap and without rhythmic tolerance, the
sentinel clears exactly when the silence reaches that window. -/
theorem pulse_window_hint_offset (s : PulseState) (c : PulseCommand) (now : ℚ)
    (hrh : isRhythmicAnimation s.entropyHistory = false)
    (hv : vetoCount0 s (cmdKey c) < s.maxVetoCount) :
    ((pulseOnPreCheck s c now).2 = PulseReply.clear ↔
      (if c.stabilityHint > 0
        then max s.settlementWindow (min 2 (c.stabilityHint / 1000 + 1/10))
        else s.settlementWindow) ≤ now - s.lastEntropyTime) := by
  have hw : (if c.stabilityHint > 0
      then max s.settlementWindow (min 2 (c.stabilityHint / 1000 + 1/10))
      else s.settlementWindow) = effectiveWindow s.settlementWindow c.stabilityHint := by
    unfold effectiveWindow; split_ifs <;> rfl
  rw [hw]
  constructor
  · intro hclear
    by_contra hlt
    rw [pulseOnPreCheck_wait s c now hrh (not_le.mp hlt) hv] at hclear
    simp at hclear
  · intro hge
    simp only [pulseOnPreCheck]
    split_ifs with h1 h2 h3 <;> simp_all

/-- Witness for the amended C3: with base 0.5 s and hint 500 ms the window in
force is 0.6 s — a pre-check 0.55 s after the last entropy event vetoes
(0.55 < 0.6) even though it exceeds the base window. -/
theorem pulse_window_hint_offset_witness :
    ((pulseOnPreCheck pulseW3State pulseW3Command (11/20)).2 = PulseReply.clear ↔
      (if pulseW3Command.stabilityHint > 0
        then max pulseW3State.settlementWindow (min 2 (pulseW3Command.stabilityHint / 1000 + 1/10))
        else pulseW3State.settlementWindow) ≤ (11/20 : ℚ) - pulseW3State.lastEntropyTime) :=
  pulse_window_hint_offset pulseW3State pulseW3Command (11/20) (by decide) (by decide)

/-- A successful `ssnMatchAt` starts with a digit. -/
theorem ssnMatchAt_any_digit (l : List Char) (m : String) (h : ssnMatchAt l = some m) :
    l.any Char.isDigit = true := by
  unfold ssnMatchAt at h
  split at h
  · split at h
    · rename_i hcond
      simp only [Bool.and_eq_true] at hcond
      simp [List.any_cons, hcond.1.1.1.1.1.1.1.1.1.1]
    · exact absurd h (by simp)
  · exact absurd h (by simp)

/-- If the ssn scan finds anything, the text holds a digit. -/
theorem ssnAux_any_digit (l : List Char) :
    ∀ prev skip, ssnAux prev skip l ≠ [] → l.any Char.isDigit = true := by
  induction l with
  | nil => intro prev skip h; simp [ssnAux] at h
  | cons c cs ih =>
    intro prev skip h
    match skip with
    | Nat.succ k =>
      have := ih (some c) k (by simpa [ssnAux] using h)
      simp [List.any_cons, this]
    | 0 =>
      rw [show ssnAux prev 0 (c :: cs) =
            (if boundaryBefore prev then
              match ssnMatchAt (c :: cs) with
              | some m => m :: ssnAux (some c) 10 cs
              | none => ssnAux (some c) 0 cs
            else ssnAux (some c) 0 cs) from rfl] at h
      by_cases hb : boundaryBefore prev = true
      · rw [if_pos hb] at h
        cases hm : ssnMatchAt (c :: cs) with
        | some m => exact ssnMatchAt_any_digit _ m hm
        | none =>
          rw [hm] at h
          have := ih (some c) 0 h
          simp [List.any_cons, this]
      · rw [if_neg hb] at h
        have := ih (some c) 0 h
        simp [List.any_cons, this]

/-- A digit is not whitespace. -/
theorem digit_not_whitespace (c : Char) (h : c.isDigit = true) : c.isWhitespace = false := by
  cases hw : c.isWhitespace
  · rfl
  · exfalso
    simp only [Char.isWhitespace, Bool.or_eq_true, decide_eq_true_eq] at hw
    rcases hw with ((h1 | h1) | h1) | h1 <;> (subst h1; exact absurd h (by decide))

/-- A text in which the ssn pattern matches is non-empty after `strip()`. -/
theorem stripTruthy_of_ssn (text : String) (h : ssnFindall text ≠ []) :
    stripTruthy text = true := by
  have hd : text.data.any Char.isDigit = true := ssnAux_any_digit text.data none 0 h
  rw [List.any_eq_true] at hd
  obtain ⟨c, hc, hdig⟩ := hd
  rw [stripTruthy, List.any_eq_true]
  exact ⟨c, hc, by simp [digit_not_whitespace c hdig]⟩

/-- If some configured pattern matches, `scan_for_pii` reports a finding. -/
theorem scanForPII_ne_nil (patterns : List (String × (String → List String)))
    (text : String) (nm : String) (f : String → List String)
    (hmem : (nm, f) ∈ patterns) (hne : f text ≠ []) :
    scanForPII patterns text ≠ [] := by
  induction patterns with
  | nil => simp at hmem
  | cons p rest ih =>
    rcases List.mem_cons.mp hmem with h | h
    · subst h
      simp only [scanForPII, List.map_cons, List.flatten_cons, ne_eq,
        List.append_eq_nil]
      intro ⟨h1, _⟩
      exact hne (by simpa using h1)
    · have := ih h
      simp only [scanForPII, List.map_cons, List.flatten_cons, ne_eq,
        List.append_eq_nil] at this ⊢
      intro ⟨_, h2⟩
      exact this (by simpa [scanForPII] using h2)

/-- C4. When `pii.mode` is "block" and the pre-check page text (including
blocking-element text) contains a PII match — here the default ssn pattern
matching e.g. 123-45-6789 — the PII Sentinel responds to that pre-check with
`starlight.hijack` (followed by `resume(re_check=False)`) and never with
`starlight.clear`, and (Hub rule modelled from the spec) the command is
aborted rather than proceeding to dispatch. -/
theorem pii_block_hijack_aborts (patterns : List (String × (String → List String)))
    (pageText : String) (blockingTexts : List String)
    (hpat : ("ssn", ssnFindall) ∈ patterns)
    (hssn : ssnFindall (allTextOf pageText blockingTexts) ≠ []) :
    piiOnPreCheck "block" patterns pageText blockingTexts
        = [PIIReply.hijack, PIIReply.resume false]
    ∧ PIIReply.clear ∉ piiOnPreCheck "block" patterns pageText blockingTexts
    ∧ hubOutcomeSpec (piiOnPreCheck "block" patterns pageText blockingTexts)
        = HubOutcome.aborted := by
  have hstrip : stripTruthy (allTextOf pageText blockingTexts) = true :=
    stripTruthy_of_ssn _ hssn
  have hfind : scanForPII patterns (allTextOf pageText blockingTexts) ≠ [] :=
    scanForPII_ne_nil patterns _ "ssn" ssnFindall hpat hssn
  have hrep : piiOnPreCheck "block" patterns pageText blockingTexts
      = [PIIReply.hijack, PIIReply.resume false] := by
    simp [piiOnPreCheck, hstrip, hfind]
  refine ⟨hrep, ?_, ?_⟩ <;> simp [hrep, hubOutcomeSpec]

/-- Witness for C4: mode "block", the pattern set holding the default ssn
pattern, page text carrying the SSN 123-45-6789. -/
theorem pii_block_hijack_aborts_witness :
    piiOnPreCheck "block" [("ssn", ssnFindall)] "Customer SSN 123-45-6789 on file" []
        = [PIIReply.hijack, PIIReply.resume false]
    ∧ PIIReply.clear ∉ piiOnPreCheck "block" [("ssn", ssnFindall)]
        "Customer SSN 123-45-6789 on file" []
    ∧ hubOutcomeSpec (piiOnPreCheck "block" [("ssn", ssnFindall)]
        "Customer SSN 123-45-6789 on file" []) = HubOutcome.aborted :=
  pii_block_hijack_aborts [("ssn", ssnFindall)] "Customer SSN 123-45-6789 on file" []
    (List.mem_singleton.mpr rfl) (by decide)

/-- The mask of a value of at least 4 characters has the value's length. -/
theorem piiRedact_length (m : String) (h : 4 ≤ m.length) :
    (piiRedact m).length = m.length := by
  unfold piiRedact
  by_cases hle : m.length ≤ 4
  · rw [if_pos hle]
    have h4 : m.length = 4 := le_antisymm hle h
    rw [h4]; rfl
  · rw [if_neg hle]
    have hlen5 : 5 ≤ m.data.length := by
      have : m.length = m.data.length := rfl
      omega
    show (String.mk _).length = m.length
    have hmk : ∀ l : List Char, (String.mk l).length = l.length := fun l => rfl
    rw [hmk]
    simp only [List.length_append, List.length_take, List.length_replicate,
      List.length_drop]
    have : m.length = m.data.length := rfl
    omega

/-- Every finding records the mask of some matched string together with that
string's length. -/
theorem scanForPII_mem (patterns : List (String × (String → List String)))
    (text : String) (f : PIIFinding) (hf : f ∈ scanForPII patterns text) :
    ∃ m : String, f.value = piiRedact m ∧ f.rawLength = m.length := by
  simp only [scanForPII, List.mem_flatten, List.mem_map] at hf
  obtain ⟨l, ⟨p, hp, rfl⟩, hfl⟩ := hf
  obtain ⟨m, hm, rfl⟩ := List.mem_map.mp hfl
  exact ⟨m, rfl, rfl⟩

/-- C5 as amended. For every string s matched by a PII pattern *of length at
least 4*, the mask recorded for it by the PII Sentinel has exactly the same
length as s; a match shorter than 4 characters is recorded as the fixed
4-character mask "****" (lines 70-71), which is not length-preserving. -/
theorem pii_redact_length_preserving (patterns : List (String × (String → List String)))
    (text : String) (f : PIIFinding)
    (hf : f ∈ scanForPII patterns text) (hlen : 4 ≤ f.rawLength) :
    f.value.length = f.rawLength := by
  obtain ⟨m, hv, hr⟩ := scanForPII_mem patterns text f hf
  rw [hv, hr]
  exact piiRedact_length m (hr ▸ hlen)

/-- Counterexample to C5 as stated. A custom pattern (as `pii.patterns` in
config permits) matching the 3-character string "abc" yields a finding whose
recorded mask is "****" of length 4 ≠ 3: the replacement is not
length-preserving for matches shorter than 4 characters. -/
theorem pii_redact_counterexample :
    scanForPII [("custom", literalFindall "abc")] "abc"
      = [{ ty := "custom", value := "****", rawLength := 3 }]
    ∧ (piiRedact "abc").length ≠ ("abc" : String).length
    ∧ ((scanForPII [("custom", literalFindall "abc")] "abc").any
        fun f => f.value.length != f.rawLength) = true := by
  refine ⟨by decide, by decide, by decide⟩

/-- Witness for the amended C5: the ssn match 123-45-6789 (length 11) is
recorded as the mask 12*******89, also of length 11. -/
theorem pii_redact_length_preserving_witness :
    ({ ty := "ssn", value := "12*******89", rawLength := 11 } : PIIFinding).value.length
      = ({ ty := "ssn", value := "12*******89", rawLength := 11 } : PIIFinding).rawLength :=
  pii_redact_length_preserving [("ssn", ssnFindall)] "123-45-6789"
    { ty := "ssn", value := "12*******89", rawLength := 11 } (by decide) (by decide)

/-- C6. The memory file is maintained by atomic replace-on-write: when the
write into the temp file fails, the file system is exactly as before (the
memory file untouched, the temp file removed); when it succeeds, the memory
file holds the serialized memory and the temp file is gone; and loading a
corrupt (non-JSON) memory file yields the empty memory without an exception
(`loadMemory` is total). -/
theorem sdk_memory_atomic (fs : String → Option String)
    (memoryFile tempPath serialized raw : String)
    (cur : List (String × String)) (parse : String → Option (List (String × String)))
    (hne : tempPath ≠ memoryFile) (hfresh : fs tempPath = none)
    (hraw : parse raw = none) :
    (∀ n, saveMemory fs memoryFile tempPath serialized false n = fs n)
    ∧ saveMemory fs memoryFile tempPath serialized true memoryFile = some serialized
    ∧ saveMemory fs memoryFile tempPath serialized true tempPath = none
    ∧ loadMemory cur (some raw) parse = [] := by
  refine ⟨?_, ?_, ?_, ?_⟩
  · intro n
    show fsRemove (fsWrite fs tempPath "") tempPath n = fs n
    simp only [fsRemove, fsWrite]
    split_ifs with h1 <;> simp_all
  · simp [saveMemory, fsWrite, fsRename, hne]
  · simp [saveMemory, fsWrite, fsRename, hne, Ne.symm hne]
  · simp [loadMemory, hraw]

/-- Witness for C6 at a concrete file system, temp path, payload and corrupt
raw text. -/
theorem sdk_memory_atomic_witness :
    (∀ n, saveMemory sdkW6FS "PulseSentinel_memory.json" "tmp1a2b.json" "new-contents" false n
        = sdkW6FS n)
    ∧ saveMemory sdkW6FS "PulseSentinel_memory.json" "tmp1a2b.json" "new-contents" true
        "PulseSentinel_memory.json" = some "new-contents"
    ∧ saveMemory sdkW6FS "PulseSentinel_memory.json" "tmp1a2b.json" "new-contents" true
        "tmp1a2b.json" = none
    ∧ loadMemory [("cookie-banner", "#accept")] (some "corrupt ,,, not json")
        (fun _ => none) = [] :=
  sdk_memory_atomic sdkW6FS "PulseSentinel_memory.json" "tmp1a2b.json" "new-contents"
    "corrupt ,,, not json" [("cookie-banner", "#accept")] (fun _ => none)
    (by decide) (by simp [sdkW6FS]) rfl

/-- The mapper never leaves the five protocol codes. -/
theorem mapException_code_mem (e : PyExc) (selector : Option String) :
    (mapExceptionToProtocol e selector).1 ∈ protocolErrorCodes := by
  simp only [mapExceptionToProtocol, protocolErrorCodes]
  split_ifs <;> simp

/-- Counterexample to C7 as stated. The unrecognized exception
`ValueError("Unknown method: timeout")` — exactly what `dispatch_command`
raises for a request whose method is named "timeout" — is mapped to
-32003 TIMEOUT_EXCEEDED by the message-substring rule, not to
-32005 DRIVER_CRASH as the claim requires for non-WebDriver exceptions. -/
theorem map_exception_counterexample :
    mapExceptionToProtocol { kind := ExcKind.valueError, msg := "Unknown method: timeout" } none
      = (-32003, "TIMEOUT_EXCEEDED")
    ∧ isWebDriverException ExcKind.valueError = false
    ∧ ((-32003 : ℤ) ≠ -32005) := by
  refine ⟨by decide, by decide, by decide⟩

/-- C7 as amended. The mapper always returns one of the five protocol codes,
and the rules fire in order on exception class *or* lowercased message
substring; therefore the per-class mapping of the claim holds whenever the
message does not contain an earlier rule's trigger substring:
NoSuchElementException always maps to -32001; StaleElementReferenceException
to -32002 unless its message mentions "no such element"; TimeoutException to
-32003 unless "no such element"/"stale"; ElementNotInteractableException to
-32004 unless "no such element"/"stale"/"timeout"; and any other exception
(WebDriverException or unrecognized) to -32005 unless one of the four
substrings appears in its message. -/
theorem map_exception_protocol_codes (e : PyExc) (selector : Option String) :
    (mapExceptionToProtocol e selector).1 ∈ protocolErrorCodes
    ∧ (e.kind = ExcKind.noSuchElementException →
        (mapExceptionToProtocol e selector).1 = -32001)
    ∧ (e.kind = ExcKind.staleElementReferenceException →
        strContains (pyLower (pyErrorMsg e)) "no such element" = false →
        (mapExceptionToProtocol e selector).1 = -32002)
    ∧ (e.kind = ExcKind.timeoutException →
        strContains (pyLower (pyErrorMsg e)) "no such element" = false →
        strContains (pyLower (pyErrorMsg e)) "stale" = false →
        (mapExceptionToProtocol e selector).1 = -32003)
    ∧ (e.kind = ExcKind.elementNotInteractableException →
        strContains (pyLower (pyErrorMsg e)) "no such element" = false →
        strContains (pyLower (pyErrorMsg e)) "stale" = false →
        strContains (pyLower (pyErrorMsg e)) "timeout" = false →
        (mapExceptionToProtocol e selector).1 = -32004)
    ∧ (e.kind ≠ ExcKind.noSuchElementException →
        e.kind ≠ ExcKind.staleElementReferenceException →
        e.kind ≠ ExcKind.timeoutException →
        e.kind ≠ ExcKind.elementNotInteractableException →
        strContains (pyLower (pyErrorMsg e)) "no such element" = false →
        strContains (pyLower (pyErrorMsg e)) "stale" = false →
        strContains (pyLower (pyErrorMsg e)) "timeout" = false →
        strContains (pyLower (pyErrorMsg e)) "not interactable" = false →
        (mapExceptionToProtocol e selector).1 = -32005) := by
  refine ⟨mapException_code_mem e selector, ?_, ?_, ?_, ?_, ?_⟩ <;>
    · intros
      simp only [mapExceptionToProtocol]
      split_ifs <;> simp_all

/-- Witness for the amended C7: a genuine StaleElementReferenceException
with its usual message maps to -32002 STALE_INTENT. -/
theorem map_exception_protocol_codes_witness :
    (mapExceptionToProtocol
      { kind := ExcKind.staleElementReferenceException,
        msg := "stale element reference: element is not attached to the page document" }
      (some "#submit")).1 = -32002 :=
  ((map_exception_protocol_codes
    { kind := ExcKind.staleElementReferenceException,
      msg := "stale element reference: element is not attached to the page document" }
    (some "#submit")).2.2.1) (by decide) (by decide)

/-- C9. The screenshot operation never returns an error response: for every
capture outcome, including a raising one, the status is "ok"; on a failed
capture the data field is the fixed placeholder PNG — so a caller cannot
distinguish a failed capture from a real one by the response status. -/
theorem screenshot_always_ok (capture : Except String String) :
    (screenshot capture).status = "ok"
    ∧ (∀ msg, capture = Except.error msg → (screenshot capture).data = dummyPngData) := by
  cases capture <;> simp [screenshot]

/-- Witness for C9 at a failing capture and at a succeeding one. -/
theorem screenshot_always_ok_witness :
    (screenshot (Except.error "HTTPConnectionPool: connection refused")).status = "ok"
    ∧ (screenshot (Except.error "HTTPConnectionPool: connection refused")).data = dummyPngData
    ∧ (screenshot (Except.ok "AAAB")).status = "ok" :=
  ⟨(screenshot_always_ok (Except.error "HTTPConnectionPool: connection refused")).1,
    (screenshot_always_ok (Except.error "HTTPConnectionPool: connection refused")).2 _ rfl,
    (screenshot_always_ok (Except.ok "AAAB")).1⟩

/-- C10. For every well-formed JSON-RPC request dequeued by the main loop,
exactly one response line is written, carrying the same id as the request,
and holding either a result object (when dispatch returns) or an error
object with one of the five protocol codes (when dispatch raises); a request
never produces both or neither. -/
theorem main_loop_single_response {ρ : Type} (beh : String → Except PyExc ρ)
    (closeResult : ρ) (req : RpcRequest) :
    (processRequest beh closeResult req).length = 1
    ∧ ∀ resp ∈ processRequest beh closeResult req,
        resp.id = req.id
        ∧ ((∃ r, resp.payload = RpcPayload.result r)
          ∨ ∃ c m, resp.payload = RpcPayload.rpcError c m ∧ c ∈ protocolErrorCodes) := by
  unfold processRequest
  split_ifs with h1
  · exact ⟨rfl, by rintro resp hr; simp at hr; subst hr; exact ⟨rfl, Or.inl ⟨_, rfl⟩⟩⟩
  · cases hd : dispatchCommand beh closeResult req.method with
    | ok r =>
      exact ⟨rfl, by rintro resp hr; simp at hr; subst hr; exact ⟨rfl, Or.inl ⟨_, rfl⟩⟩⟩
    | error e =>
      refine ⟨rfl, ?_⟩
      rintro resp hr
      simp at hr
      subst hr
      exact ⟨rfl, Or.inr ⟨_, _, rfl, mapException_code_mem e req.selector⟩⟩

/-- Witness for C10: a request with the unknown method "timeout" gets
exactly one response, an error with protocol code -32003. -/
theorem main_loop_single_response_witness :
    (processRequest (fun _ => Except.ok ()) () { method := "timeout", selector := none, id := some "7" }).length = 1
    ∧ ∀ resp ∈ processRequest (fun _ => Except.ok ()) ()
        { method := "timeout", selector := none, id := some "7" },
        resp.id = some "7"
        ∧ ((∃ r, resp.payload = RpcPayload.result r)
          ∨ ∃ c m, resp.payload = RpcPayload.rpcError c m ∧ c ∈ protocolErrorCodes) :=
  main_loop_single_response (fun _ => Except.ok ()) ()
    { method := "timeout", selector := none, id := some "7" }

/-- C8 evaluated on the code: the learning branch is unreachable. After any
`perform_remediation` — in particular a heuristic one against a
previously-unknown obstacle — `last_action` is either `None` or marked
known, so the following `COMMAND_COMPLETE` with success=true stores nothing:
the learned map never gains an entry, contradicting the claim that a
successful previously-unknown remediation adds one. -/
theorem janitor_learning_never_fires (s : JanitorState) (obstacleId : String)
    (success : Option Bool) (hinv : janitorInv s) :
    janitorInv (performRemediation s obstacleId).1
    ∧ (janitorOnCommandComplete (performRemediation s obstacleId).1 success).memory
        = (performRemediation s obstacleId).1.memory
    ∧ (performRemediation s obstacleId).1.memory = s.memory := by
  have hstep : janitorInv (performRemediation s obstacleId).1
      ∧ (performRemediation s obstacleId).1.memory = s.memory := by
    unfold performRemediation
    split_ifs with h1
    · exact ⟨hinv, rfl⟩
    · cases hm : lookupMemory s.memory obstacleId with
      | some bestAction =>
        simp only [janitorInv, hm]
        refine ⟨?_, trivial⟩
        intro la hla
        simp at hla
        rw [← hla]
      | none =>
        simp only [janitorInv, hm]
        refine ⟨?_, trivial⟩
        intro la hla
        simp at hla
  refine ⟨hstep.1, ?_, hstep.2⟩
  set s1 := (performRemediation s obstacleId).1 with hs1
  unfold janitorOnCommandComplete
  cases hla : (if s1.phase = JanitorPhase.HIJACKING ∧ success.getD false then
      { s1 with recoverySuccessful := true } else s1).lastAction with
  | none =>
    simp only [hla]
    split_ifs <;> rfl
  | some la =>
    have hk : la.known = true := by
      apply hstep.1 la
      by_cases hc : s1.phase = JanitorPhase.HIJACKING ∧ success.getD false
      · rw [if_pos hc] at hla; exact hla
      · rw [if_neg hc] at hla; exact hla
    simp [hla, hk]
    split_ifs <;> simp_all

/-- Witness for the C8 evaluation: remediating the previously-unknown
obstacle ".modal" and then receiving COMMAND_COMPLETE with success=true
leaves the learned map empty. -/
theorem janitor_learning_never_fires_witness :
    janitorInv (performRemediation janitorW8State ".modal").1
    ∧ (janitorOnCommandComplete (performRemediation janitorW8State ".modal").1
        (some true)).memory = (performRemediation janitorW8State ".modal").1.memory
    ∧ (performRemediation janitorW8State ".modal").1.memory = janitorW8State.memory :=
  janitor_learning_never_fires janitorW8State ".modal" (some true)
    (fun _ h => Option.noConfusion h)

example : cmdKey { cmd := "click", goal := "", selector := "#a", url := "", stabilityHint := 0 } = "#a" := by decide

example :
    (pulseOnPreCheck
      { settlementWindow := 1/2, maxVetoCount := 3, state := SentinelState.IDLE,
        lastEntropyTime := 0, entropyHistory := [], vetoCount := 0,
        currentCommandId := none, preChecks := 0, vetoes := 0, clearances := 0 }
      { cmd := "click", goal := "g", selector := "", url := "", stabilityHint := 0 }
      (1/10)).2 = PulseReply.wait 400 := by decide
